import Mathlib

/-!
Verification of the CordIDMonitor identity-resolution and event-correlation core.

The Python sources are embedded shallowly:
* `USBDevice` models the snapshot class `USBDevice` of `core.py` (its string
  attributes; the udev handle itself is not part of the snapshot's observable state).
* Python `dict`s are modelled as association lists with unique-key update
  (`setKey`) and deletion (`eraseKey`); `dict` lookup is `lookupKey`.
* Python `int(s)` is modelled by `pyInt` (success on optionally signed
  decimal literals, failure otherwise), and a failing parse inside a `try` block
  is modelled by the `none` branch.
-/

/-- Update an association list at a key (Python `d[k] = v`): replace the existing
binding in place if the key is present, otherwise append a new binding. -/
def setKey (k : String) (v : α) : List (String × α) → List (String × α)
  | [] => [(k, v)]
  | (a, b) :: m => if a = k then (k, v) :: m else (a, b) :: setKey k v m

/-- Delete a key from an association list (Python `del d[k]`). -/
def eraseKey (k : String) : List (String × α) → List (String × α)
  | [] => []
  | (a, b) :: m => if a = k then eraseKey k m else (a, b) :: eraseKey k m

/-- Look a key up in an association list (Python `d[k]` / `d.get(k)` /
`k in d`). -/
def lookupKey (k : String) : List (String × α) → Option α
  | [] => none
  | (a, b) :: m => if a = k then some b else lookupKey k m

/-- Character-list version of Python `sub in s` (substring containment):
does the list start with `sub`? -/
def startsWithChars : List Char → List Char → Bool
  | [], _ => true
  | _ :: _, [] => false
  | a :: as, b :: bs => decide (a = b) && startsWithChars as bs

/-- Does the character list contain `sub` as a contiguous sublist? -/
def hasSubChars (sub : List Char) : List Char → Bool
  | [] => sub.isEmpty
  | c :: rest => startsWithChars sub (c :: rest) || hasSubChars sub rest

/-- Python `sub in s` on strings. -/
def strContains (s sub : String) : Bool := hasSubChars sub.data s.data

/-- Accumulate the decimal value of a character list; `none` on the first
non-digit character. -/
def digitsCore : Nat → List Char → Option Nat
  | acc, [] => some acc
  | acc, c :: cs =>
      if c.isDigit then digitsCore (acc * 10 + (c.toNat - '0'.toNat)) cs else none

/-- Model of Python `int(s)` on the strings this program feeds it: an optional
sign followed by at least one decimal digit parses to its value, anything else
(including the empty string and `"N/A"`) raises, modelled as `none`.  Python's
tolerance for surrounding whitespace and `_` separators is not modelled: the
sysfs-derived strings here never contain them. -/
def pyInt (s : String) : Option Int :=
  match s.data with
  | [] => none
  | '-' :: cs => if cs = [] then none else (digitsCore 0 cs).map (fun n => -(n : Int))
  | '+' :: cs => if cs = [] then none else (digitsCore 0 cs).map (fun n => (n : Int))
  | cs => (digitsCore 0 cs).map (fun n => (n : Int))

/-- Snapshot of a USB device's state: the attribute fields read in
`USBDevice.__init__` (core.py).  `serial` is `ID_SERIAL_SHORT` (absent → `none`);
`forced_stable_id` is the `_forced_stable_id` override, initialised to `None`
and set only by the monitor loop on remove/unbind. -/
structure USBDevice where
  sys_path : String
  sys_name : String
  vendor : String
  model : String
  serial : Option String
  vid : String
  pid : String
  bus_num : String
  dev_num : String
  speed : String
  version : String
  max_power : String
  forced_stable_id : Option String
deriving DecidableEq

/-- The serial-first fallback body of `USBDevice.stable_id` (core.py lines 65-70):
`SERIAL:<serial>` when the serial is truthy (present and non-empty), else
`PATH:<vid>:<pid>:<sys_name>`. -/
def USBDevice.stableIdBase (d : USBDevice) : String :=
  match d.serial with
  | some s =>
      if s = "" then "PATH:" ++ d.vid ++ ":" ++ d.pid ++ ":" ++ d.sys_name
      else "SERIAL:" ++ s
  | none => "PATH:" ++ d.vid ++ ":" ++ d.pid ++ ":" ++ d.sys_name

/-- `USBDevice.stable_id` (core.py lines 54-70): a truthy forced override wins,
otherwise the serial-first computation. -/
def USBDevice.stable_id (d : USBDevice) : String :=
  match d.forced_stable_id with
  | some f => if f = "" then d.stableIdBase else f
  | none => d.stableIdBase

/-- `USBDevice.get_friendly_name` (core.py lines 72-76). -/
def USBDevice.get_friendly_name (d : USBDevice) : String :=
  let name := (d.vendor ++ " " ++ d.model).trim
  let name := if name = "Unknown Unknown"
              then "USB Device (" ++ d.vid ++ ":" ++ d.pid ++ ")" else name
  name.replace "_" " "

/-- State owned by `DeviceManager` (core.py lines 100-101):
`_syspath_map : sys_path → stable_id` and `_device_cache : stable_id → USBDevice`. -/
structure MState where
  syspath_map : List (String × String)
  device_cache : List (String × USBDevice)
deriving DecidableEq

/-- Remove a device from `_device_cache` (core.py lines 160-162):
deleted only when its (possibly forced) stable id is a present key. -/
def cacheRemove (c : List (String × USBDevice)) (d : USBDevice) :
    List (String × USBDevice) :=
  if (lookupKey d.stable_id c).isSome then eraseKey d.stable_id c else c

/-- One iteration of `DeviceManager._monitor_loop` for a delivered event
(core.py lines 141-166), organised by action.  Returns the updated state and
the device object passed to `on_device_event` (whose `_forced_stable_id` may
have been set from the syspath map):

* `add`: `_syspath_map[sys_path] = stable_id`, `_device_cache[stable_id] = dev`;
* `remove`: if sys_path is a known key, force the cached identity onto the
  device and delete the map entry; then delete the cache entry for the
  (forced) stable id when present;
* `unbind`: only the identity forcing, no map or cache mutation;
* any other action: no state change. -/
def monStep (st : MState) (action : String) (dev : USBDevice) : MState × USBDevice :=
  if action = "add" then
    (⟨setKey dev.sys_path dev.stable_id st.syspath_map,
      setKey dev.stable_id dev st.device_cache⟩, dev)
  else if action = "remove" then
    match lookupKey dev.sys_path st.syspath_map with
    | some known =>
        let dev' := { dev with forced_stable_id := some known }
        (⟨eraseKey dev.sys_path st.syspath_map, cacheRemove st.device_cache dev'⟩, dev')
    | none => (⟨st.syspath_map, cacheRemove st.device_cache dev⟩, dev)
  else if action = "unbind" then
    match lookupKey dev.sys_path st.syspath_map with
    | some known => (st, { dev with forced_stable_id := some known })
    | none => (st, dev)
  else (st, dev)

/-- Process a sequence of raw events through the monitor loop. -/
def runMon (st : MState) (evts : List (String × USBDevice)) : MState :=
  evts.foldl (fun s e => (monStep s e.1 e.2).1) st

/-- One step of `DeviceManager.list_devices` (core.py lines 108-112): append the
device to the result and upsert both the cache and the syspath map. -/
def listStep (acc : List USBDevice × MState) (d : USBDevice) :
    List USBDevice × MState :=
  (acc.1 ++ [d],
   ⟨setKey d.sys_path d.stable_id acc.2.syspath_map,
    setKey d.stable_id d acc.2.device_cache⟩)

/-- `DeviceManager.list_devices` (core.py lines 103-113), with the fresh
enumeration's results given as the list `present`. -/
def list_devices (st : MState) (present : List USBDevice) :
    List USBDevice × MState :=
  present.foldl listStep ([], st)

/-- The flags and known max computed by one speed observation.  `isNewMax`
records whether the history was (re)written — the code path that fires
`save_callback()` in `update_view` (ui.py lines 349-355). -/
structure ObserveOut where
  isNewMax : Bool
  isDowngraded : Bool
  knownMax : Int
deriving DecidableEq

/-- The history-update and downgrade check of `MonitoringPage.update_view`
(ui.py lines 345-368) after the speed string parsed to the integer `cur`:
an unseen identity records `cur`; a strictly greater speed overwrites the
stored max; `known_max` is the stored value after the update and
`is_downgraded` holds exactly when `cur` is strictly below it. -/
def observeNum (hist : List (String × Int)) (id : String) (cur : Int) :
    List (String × Int) × ObserveOut :=
  let hist1 :=
    match lookupKey id hist with
    | none => setKey id cur hist
    | some m => if cur > m then setKey id cur hist else hist
  let isNew :=
    match lookupKey id hist with
    | none => true
    | some m => decide (cur > m)
  let km := (lookupKey id hist1).getD 0
  (hist1, ⟨isNew, decide (cur < km), km⟩)

/-- The whole guarded block of `update_view` (ui.py lines 345-371): when
`int(device.speed)` raises, the exception is swallowed and neither the history
nor the flags change (`is_downgraded = False`, `known_max = 0`). -/
def observe (hist : List (String × Int)) (id : String) (speedStr : String) :
    List (String × Int) × ObserveOut :=
  match pyInt speedStr with
  | none => (hist, ⟨false, false, 0⟩)
  | some cur => observeNum hist id cur

/-- Decimal fraction rendering of `mbps / 1000` as Python's g-format prints it
for this program's positive inputs below one million Mbps: fixed point with the
trailing zeros of the fractional part removed (`2500 → "2.5"`, `3000 → "3"`). -/
def gFmtDiv1000 (mbps : Int) : String :=
  let q := mbps / 1000
  let r := (mbps % 1000).toNat
  if r = 0 then toString q
  else
    let rs := (if r < 10 then "00" else if r < 100 then "0" else "") ++ toString r
    toString q ++ "." ++ ⟨(rs.data.reverse.dropWhile (fun c => c = '0')).reverse⟩

/-- `format_speed` (utils.py lines 3-37): `("Unknown", "")` for a falsy or
`"N/A"` input, the input echoed back when it does not parse as an integer,
named marketing labels for the standard signalling rates, and generic
Gbps/Mbps rendering otherwise. -/
def format_speed (speed_mbps_str : String) : String × String :=
  if speed_mbps_str = "" ∨ speed_mbps_str = "N/A" then ("Unknown", "")
  else
    match pyInt speed_mbps_str with
    | none => (speed_mbps_str, "")
    | some mbps =>
      if mbps = 1 then ("1.5 Mbps", "USB 1.1 Low Speed")
      else if mbps = 12 then ("12 Mbps", "USB 1.1 Full Speed")
      else if mbps = 480 then ("480 Mbps", "USB 2.0 High Speed")
      else if mbps = 5000 then ("5 Gbps", "USB 3.2 Gen 1 (SuperSpeed)")
      else if mbps = 10000 then ("10 Gbps", "USB 3.2 Gen 2 (SuperSpeed+)")
      else if mbps = 20000 then ("20 Gbps", "USB 3.2 Gen 2x2 (SuperSpeed+ 20G)")
      else if mbps = 40000 then ("40 Gbps", "USB4 Gen 3x2")
      else if mbps = 80000 then ("80 Gbps", "USB4 Gen 4 (USB4 v2)")
      else if mbps ≥ 1000 then (gFmtDiv1000 mbps ++ " Gbps", "")
      else (toString mbps ++ " Mbps", "")

/-- A `device_registry` value (ui.py lines 884-888): display name, set of
observed speeds (modelled as a duplicate-free list in insertion order) and
last-seen timestamp. -/
structure RegEntry where
  name : String
  speeds : List Int
  last_seen : String
deriving DecidableEq

/-- The `is_unknown_name` test of `handle_device_event` (ui.py line 876): a
display name is a placeholder when it contains the unresolved vendor/product
marker `"----:----"` or an `"Unknown"` token. -/
def isPlaceholder (n : String) : Bool :=
  strContains n "----:----" || strContains n "Unknown"

/-- Python `set.add` on the observed-speed set. -/
def addSpeed (s : List Int) (v : Int) : List Int :=
  if v ∈ s then s else s ++ [v]

/-- The registry-update block of `MainWindow.handle_device_event`
(ui.py lines 872-902), as the spec's `upsertRegistry`:

* a candidate name containing `"----:----"` or `"Unknown"` is a placeholder;
  when the identity is already registered, the registered name is substituted
  for a placeholder candidate;
* first sight creates the entry; otherwise the name is updated only by a
  non-placeholder candidate;
* `last_seen` is always refreshed and a parsable speed is added to the set.

Returns the updated registry and the (possibly substituted) friendly name the
log entry will use. -/
def upsertRegistry (reg : List (String × RegEntry)) (id : String)
    (rawName : String) (speedStr : String) (now : String) :
    List (String × RegEntry) × String :=
  let isUnknown := isPlaceholder rawName
  let friendly :=
    match lookupKey id reg with
    | some e => if isUnknown then e.name else rawName
    | none => rawName
  let reg1 :=
    match lookupKey id reg with
    | none => setKey id ⟨friendly, [], now⟩ reg
    | some e => if isUnknown then reg else setKey id { e with name := friendly } reg
  let reg2 :=
    match lookupKey id reg1 with
    | some e =>
        let e1 := { e with last_seen := now }
        let e2 :=
          match pyInt speedStr with
          | some v => { e1 with speeds := addSpeed e1.speeds v }
          | none => e1
        setKey id e2 reg1
    | none => reg1
  (reg2, friendly)

/-- The raw action → event-type label mapping of `handle_device_event`
(ui.py lines 905-908): `evt_type` starts as `"Changed"` and only `add` and
`remove` reassign it. -/
def evtType (action : String) : String :=
  if action = "add" then "Connected"
  else if action = "remove" then "Disconnected"
  else if action = "change" then "Changed"
  else "Changed"

/-- One `event_log` record (ui.py lines 915-922). -/
structure LogEntry where
  time : String
  event : String
  device_name : String
  speed : String
  bus : String
  version : String
deriving DecidableEq

/-- The log entry `handle_device_event` builds (ui.py lines 904-922): the
cleaned friendly name, the event-type label, and the speed display, which is
the formatted snapshot speed except on `remove`, where it is `"-"`. -/
def logEntryOf (reg : List (String × RegEntry)) (action : String)
    (dev : USBDevice) (now : String) : LogEntry :=
  { time := now
    event := evtType action
    device_name := (upsertRegistry reg dev.stable_id dev.get_friendly_name dev.speed now).2
    speed := if action = "remove" then "-" else (format_speed dev.speed).1
    bus := dev.bus_num ++ "-" ++ dev.sys_name
    version := dev.version }

/-- The state change of `MainWindow.handle_device_event` (ui.py lines 866-923)
on the registry and the event log: upsert the registry, then append exactly one
entry to the log. -/
def handleDeviceEvent (reg : List (String × RegEntry)) (log : List LogEntry)
    (action : String) (dev : USBDevice) (now : String) :
    List (String × RegEntry) × List LogEntry :=
  ((upsertRegistry reg dev.stable_id dev.get_friendly_name dev.speed now).1,
   log ++ [logEntryOf reg action dev now])

/-! Association-list lemmas. -/

theorem lookupKey_setKey_self (k : String) (v : α) (m : List (String × α)) :
    lookupKey k (setKey k v m) = some v := by
  induction m with
  | nil => simp [setKey, lookupKey]
  | cons hd tl ih =>
      obtain ⟨a, b⟩ := hd
      by_cases h : a = k
      · subst h; simp [setKey, lookupKey]
      · simp [setKey, lookupKey, h, ih]

theorem lookupKey_setKey_ne (k k' : String) (v : α) (m : List (String × α))
    (h : k' ≠ k) : lookupKey k' (setKey k v m) = lookupKey k' m := by
  induction m with
  | nil => simp [setKey, lookupKey, Ne.symm h]
  | cons hd tl ih =>
      obtain ⟨a, b⟩ := hd
      by_cases ha : a = k
      · subst ha; simp [setKey, lookupKey, Ne.symm h]
      · by_cases ha' : a = k'
        · simp [setKey, lookupKey, ha, ha', h]
        · simp [setKey, lookupKey, ha, ha', ih]

theorem lookupKey_eraseKey_self (k : String) (m : List (String × α)) :
    lookupKey k (eraseKey k m) = none := by
  induction m with
  | nil => simp [eraseKey, lookupKey]
  | cons hd tl ih =>
      obtain ⟨a, b⟩ := hd
      by_cases h : a = k
      · simp [eraseKey, h, ih]
      · simp [eraseKey, lookupKey, h, ih]

theorem lookupKey_eraseKey_ne (k k' : String) (m : List (String × α))
    (h : k' ≠ k) : lookupKey k' (eraseKey k m) = lookupKey k' m := by
  induction m with
  | nil => simp [eraseKey, lookupKey]
  | cons hd tl ih =>
      obtain ⟨a, b⟩ := hd
      by_cases ha : a = k
      · subst ha; simp [eraseKey, lookupKey, Ne.symm h, ih]
      · by_cases ha' : a = k'
        · simp [eraseKey, lookupKey, ha, ha', h]
        · simp [eraseKey, lookupKey, ha, ha', ih]

/-! String nonemptiness facts needed for Python truthiness of identities. -/

theorem strAppendData (a b : String) : (a ++ b).data = a.data ++ b.data := by
  cases a; cases b; rfl

theorem strAppend_ne_empty_left (a b : String) (h : a.data ≠ []) : a ++ b ≠ "" := by
  intro he
  apply h
  have hd := congrArg String.data he
  rw [strAppendData] at hd
  exact (List.append_eq_nil.mp hd).1

theorem strAppend_data_ne_nil_right (a b : String) (h : b.data ≠ []) :
    (a ++ b).data ≠ [] := by
  rw [strAppendData]
  intro hh
  exact h (List.append_eq_nil.mp hh).2

/-- The serial-first identity is never the empty string, hence always truthy
for the forced-override check. -/
theorem stableIdBase_ne_empty (d : USBDevice) : d.stableIdBase ≠ "" := by
  have hp : ("PATH:" ++ d.vid ++ ":" ++ d.pid ++ ":" ++ d.sys_name) ≠ "" :=
    strAppend_ne_empty_left _ _ (strAppend_data_ne_nil_right _ _ (by decide))
  unfold USBDevice.stableIdBase
  split
  · split
    · exact hp
    · exact strAppend_ne_empty_left _ _ (by decide)
  · exact hp

theorem stable_id_ne_empty (d : USBDevice) : d.stable_id ≠ "" := by
  unfold USBDevice.stable_id
  split
  · split
    · exact stableIdBase_ne_empty d
    · assumption
  · exact stableIdBase_ne_empty d

/-- A forced nonempty override is returned verbatim by `stable_id`. -/
theorem stable_id_forced (d : USBDevice) (f : String) (hf : f ≠ "") :
    ({ d with forced_stable_id := some f } : USBDevice).stable_id = f := by
  simp [USBDevice.stable_id, hf]

/-! Sample snapshots used as concrete witnesses. -/

/-- Sample snapshot with a hardware serial. -/
def devSerial : USBDevice :=
  { sys_path := "/sys/devices/pci/usb1/1-2", sys_name := "1-2",
    vendor := "Acme", model := "Widget", serial := some "XYZ",
    vid := "1234", pid := "5678", bus_num := "001", dev_num := "004",
    speed := "5000", version := "3.00", max_power := "896mA",
    forced_stable_id := none }

/-- Removal-time snapshot of the same physical port with every identifying
attribute unreadable. -/
def devGone : USBDevice :=
  { sys_path := "/sys/devices/pci/usb1/1-2", sys_name := "1-2",
    vendor := "Unknown", model := "Unknown", serial := none,
    vid := "----", pid := "----", bus_num := "?", dev_num := "?",
    speed := "N/A", version := "N/A", max_power := "N/A",
    forced_stable_id := none }

/-- A different device on another port. -/
def devOther : USBDevice :=
  { sys_path := "/sys/devices/pci/usb1/1-3", sys_name := "1-3",
    vendor := "Foo", model := "Bar", serial := some "Q1",
    vid := "aaaa", pid := "bbbb", bus_num := "001", dev_num := "005",
    speed := "480", version := "2.00", max_power := "100mA",
    forced_stable_id := none }

/-! Computation lemmas for `monStep` at the concrete actions. -/

theorem monStep_add_map (st : MState) (d : USBDevice) :
    (monStep st "add" d).1.syspath_map =
      setKey d.sys_path d.stable_id st.syspath_map := rfl

theorem monStep_map_not_remove (st : MState) (a : String) (d : USBDevice)
    (ha : a ≠ "add") (hr : a ≠ "remove") :
    (monStep st a d).1.syspath_map = st.syspath_map := by
  unfold monStep
  rw [if_neg ha, if_neg hr]
  by_cases hu : a = "unbind"
  · rw [if_pos hu]
    cases hl : lookupKey d.sys_path st.syspath_map <;> rfl
  · rw [if_neg hu]

theorem monStep_map_lookup_other (st : MState) (a : String) (d : USBDevice)
    (p : String) (h : d.sys_path = p → a ≠ "add" ∧ a ≠ "remove") :
    lookupKey p (monStep st a d).1.syspath_map = lookupKey p st.syspath_map := by
  by_cases hp : d.sys_path = p
  · obtain ⟨ha, hr⟩ := h hp
    rw [monStep_map_not_remove st a d ha hr]
  · unfold monStep
    by_cases ha : a = "add"
    · rw [if_pos ha]
      exact lookupKey_setKey_ne _ _ _ _ (fun hh => hp hh.symm)
    · rw [if_neg ha]
      by_cases hr : a = "remove"
      · rw [if_pos hr]
        cases hl : lookupKey d.sys_path st.syspath_map with
        | none => rfl
        | some known =>
            exact lookupKey_eraseKey_ne _ _ _ (fun hh => hp hh.symm)
      · rw [if_neg hr]
        by_cases hu : a = "unbind"
        · rw [if_pos hu]
          cases hl : lookupKey d.sys_path st.syspath_map <;> rfl
        · rw [if_neg hu]

theorem runMon_map_lookup_other (p : String) (mid : List (String × USBDevice)) :
    ∀ (st : MState),
      (∀ e ∈ mid, e.2.sys_path = p → e.1 ≠ "add" ∧ e.1 ≠ "remove") →
      lookupKey p (runMon st mid).syspath_map = lookupKey p st.syspath_map := by
  induction mid with
  | nil => intro st _; rfl
  | cons e rest ih =>
      intro st hmid
      have h1 := monStep_map_lookup_other st e.1 e.2 p (hmid e (by simp))
      have h2 := ih (monStep st e.1 e.2).1
        (fun e' he' => hmid e' (List.mem_cons_of_mem e he'))
      calc lookupKey p (runMon st (e :: rest)).syspath_map
          = lookupKey p (runMon (monStep st e.1 e.2).1 rest).syspath_map := rfl
        _ = lookupKey p (monStep st e.1 e.2).1.syspath_map := h2
        _ = lookupKey p st.syspath_map := h1

theorem monStep_remove_emit_known (st : MState) (r : USBDevice) (idv : String)
    (hl : lookupKey r.sys_path st.syspath_map = some idv) :
    (monStep st "remove" r).2 = { r with forced_stable_id := some idv } := by
  unfold monStep
  rw [if_neg (by decide : ¬("remove" : String) = "add"), if_pos rfl, hl]

theorem monStep_unbind_emit_known (st : MState) (r : USBDevice) (idv : String)
    (hl : lookupKey r.sys_path st.syspath_map = some idv) :
    (monStep st "unbind" r).2 = { r with forced_stable_id := some idv } := by
  unfold monStep
  rw [if_neg (by decide : ¬("unbind" : String) = "add"),
    if_neg (by decide : ¬("unbind" : String) = "remove"), if_pos rfl, hl]

theorem monStep_remove_emit_unknown (st : MState) (r : USBDevice)
    (hl : lookupKey r.sys_path st.syspath_map = none) :
    (monStep st "remove" r).2 = r := by
  unfold monStep
  rw [if_neg (by decide : ¬("remove" : String) = "add"), if_pos rfl, hl]

theorem monStep_unbind_emit_unknown (st : MState) (r : USBDevice)
    (hl : lookupKey r.sys_path st.syspath_map = none) :
    (monStep st "unbind" r).2 = r := by
  unfold monStep
  rw [if_neg (by decide : ¬("unbind" : String) = "add"),
    if_neg (by decide : ¬("unbind" : String) = "remove"), if_pos rfl, hl]

/-! Claim theorems. -/

/-- C1: for a snapshot with no forced-identity override, a present non-empty
serial makes the stable identity `"SERIAL:" ++ serial` — unchanged under any
change to vendorId, productId and sys_name — and otherwise the identity is
`"PATH:" ++ vendorId ++ ":" ++ productId ++ ":" ++ sys_name`.  `stable_id` is a
pure function of the snapshot's fields, so the computation is deterministic. -/
theorem C1_stable_identity (d : USBDevice) (h : d.forced_stable_id = none) :
    (∀ s, d.serial = some s → s ≠ "" →
      d.stable_id = "SERIAL:" ++ s ∧
      ∀ v p n, ({ d with vid := v, pid := p, sys_name := n } : USBDevice).stable_id
               = d.stable_id) ∧
    ((d.serial = none ∨ d.serial = some "") →
      d.stable_id = "PATH:" ++ d.vid ++ ":" ++ d.pid ++ ":" ++ d.sys_name) := by
  constructor
  · intro s hs hne
    constructor
    · simp [USBDevice.stable_id, USBDevice.stableIdBase, h, hs, hne]
    · intro v p n
      simp [USBDevice.stable_id, USBDevice.stableIdBase, h, hs, hne]
  · rintro (hs | hs) <;>
      simp [USBDevice.stable_id, USBDevice.stableIdBase, h, hs]

/-- Closed instantiation of `C1_stable_identity` at the concrete snapshot
`devSerial`. -/
theorem C1_stable_identity_witness :
    devSerial.stable_id = "SERIAL:" ++ "XYZ" ∧
    devGone.stable_id = "PATH:" ++ devGone.vid ++ ":" ++ devGone.pid
                        ++ ":" ++ devGone.sys_name :=
  ⟨((C1_stable_identity devSerial rfl).1 "XYZ" rfl (by decide)).1,
   (C1_stable_identity devGone rfl).2 (Or.inl rfl)⟩

/-- C2: once an Add for a sys_path has been processed, and as long as no later
Add or Remove for that sys_path intervenes (the spec's "no later Remove",
with the Add read as the one that registered the mapping), a Remove or Unbind
event for the path emits a device whose identity equals the one computed at
the Add — whatever the removal-time snapshot's serial, vendorId or productId
look like.  When the path has no entry in the syspath map, the emitted device
is the snapshot itself and its identity is the freshly computed one. -/
theorem C2_removal_resolution
    (st0 : MState) (mid : List (String × USBDevice)) (d r : USBDevice)
    (hpath : r.sys_path = d.sys_path)
    (hmid : ∀ e ∈ mid, e.2.sys_path = d.sys_path → e.1 ≠ "add" ∧ e.1 ≠ "remove") :
    ((monStep (runMon (monStep st0 "add" d).1 mid) "remove" r).2.stable_id
       = d.stable_id ∧
     (monStep (runMon (monStep st0 "add" d).1 mid) "unbind" r).2.stable_id
       = d.stable_id) ∧
    (∀ (st : MState) (q : USBDevice),
       lookupKey q.sys_path st.syspath_map = none → q.forced_stable_id = none →
       (monStep st "remove" q).2.stable_id = q.stableIdBase ∧
       (monStep st "unbind" q).2.stable_id = q.stableIdBase) := by
  have hadd : lookupKey d.sys_path ((monStep st0 "add" d).1).syspath_map
      = some d.stable_id := by
    rw [monStep_add_map]
    exact lookupKey_setKey_self _ _ _
  have hmap : lookupKey r.sys_path
      (runMon (monStep st0 "add" d).1 mid).syspath_map = some d.stable_id := by
    rw [hpath, runMon_map_lookup_other d.sys_path mid _ hmid]
    exact hadd
  refine ⟨⟨?_, ?_⟩, ?_⟩
  · rw [monStep_remove_emit_known _ _ _ hmap]
    exact stable_id_forced r d.stable_id (stable_id_ne_empty d)
  · rw [monStep_unbind_emit_known _ _ _ hmap]
    exact stable_id_forced r d.stable_id (stable_id_ne_empty d)
  · intro st q hl hq
    constructor
    · rw [monStep_remove_emit_unknown st q hl]
      simp [USBDevice.stable_id, hq]
    · rw [monStep_unbind_emit_unknown st q hl]
      simp [USBDevice.stable_id, hq]

/-- Closed instantiation of `C2_removal_resolution`: the device is added with
serial `"XYZ"`, an unrelated change event passes, and the removal-time snapshot
`devGone` has no readable serial/vendorId/productId, yet the remove resolves to
`devSerial`'s identity; in an empty state the remove falls back to the fresh
identity. -/
theorem C2_removal_resolution_witness :
    (monStep (runMon (monStep ⟨[], []⟩ "add" devSerial).1 [("change", devOther)])
        "remove" devGone).2.stable_id = devSerial.stable_id ∧
    (monStep (⟨[], []⟩ : MState) "remove" devGone).2.stable_id
      = devGone.stableIdBase :=
  ⟨(C2_removal_resolution ⟨[], []⟩ [("change", devOther)] devSerial devGone rfl
      (by decide)).1.1,
   ((C2_removal_resolution ⟨[], []⟩ [] devSerial devGone rfl (by decide)).2
      ⟨[], []⟩ devGone rfl rfl).1⟩

/-- C3: an Add stores sys_path → identity in the syspath map; an Unbind leaves
the map untouched; a Remove deletes the entry for its sys_path (and no other
entry); and no event kind other than Remove makes a present entry absent. -/
theorem C3_pathmap_lifecycle :
    (∀ (st : MState) (d : USBDevice),
       lookupKey d.sys_path (monStep st "add" d).1.syspath_map
         = some d.stable_id) ∧
    (∀ (st : MState) (d : USBDevice),
       (monStep st "unbind" d).1.syspath_map = st.syspath_map) ∧
    (∀ (st : MState) (d : USBDevice),
       lookupKey d.sys_path (monStep st "remove" d).1.syspath_map = none ∧
       ∀ q, q ≠ d.sys_path →
         lookupKey q (monStep st "remove" d).1.syspath_map
           = lookupKey q st.syspath_map) ∧
    (∀ (st : MState) (a : String) (d : USBDevice) (q : String), a ≠ "remove" →
       (lookupKey q st.syspath_map).isSome →
       (lookupKey q (monStep st a d).1.syspath_map).isSome) := by
  refine ⟨?_, ?_, ?_, ?_⟩
  · intro st d
    rw [monStep_add_map]
    exact lookupKey_setKey_self _ _ _
  · intro st d
    exact monStep_map_not_remove st "unbind" d (by decide) (by decide)
  · intro st d
    constructor
    · unfold monStep
      rw [if_neg (by decide : ¬("remove" : String) = "add"), if_pos rfl]
      cases hl : lookupKey d.sys_path st.syspath_map with
      | none => exact hl
      | some known => exact lookupKey_eraseKey_self _ _
    · intro q hq
      unfold monStep
      rw [if_neg (by decide : ¬("remove" : String) = "add"), if_pos rfl]
      cases hl : lookupKey d.sys_path st.syspath_map with
      | none => rfl
      | some known => exact lookupKey_eraseKey_ne _ _ _ hq
  · intro st a d q hr hs
    by_cases ha : a = "add"
    · subst ha
      rw [monStep_add_map]
      by_cases hq : q = d.sys_path
      · subst hq
        rw [lookupKey_setKey_self]
        rfl
      · rw [lookupKey_setKey_ne _ _ _ _ hq]
        exact hs
    · rw [monStep_map_not_remove st a d ha hr]
      exact hs

/-- Closed instantiation of `C3_pathmap_lifecycle` at concrete states. -/
theorem C3_pathmap_lifecycle_witness :
    lookupKey devSerial.sys_path
      (monStep ⟨[], []⟩ "add" devSerial).1.syspath_map = some devSerial.stable_id ∧
    (lookupKey "/sys/devices/pci/usb1/1-2"
      (monStep ⟨[("/sys/devices/pci/usb1/1-2", "SERIAL:XYZ")], []⟩
        "change" devOther).1.syspath_map).isSome :=
  ⟨C3_pathmap_lifecycle.1 ⟨[], []⟩ devSerial,
   C3_pathmap_lifecycle.2.2.2 ⟨[("/sys/devices/pci/usb1/1-2", "SERIAL:XYZ")], []⟩
     "change" devOther "/sys/devices/pci/usb1/1-2" (by decide) (by decide)⟩

/-- C4: an unseen identity records the speed as its max with `isNewMax` set and
`isDowngraded` unset; a speed strictly above the stored max updates the max with
`isNewMax` set; a speed strictly below sets `isDowngraded`, leaves the history
unchanged and reports the stored max as `knownMax`; an equal speed sets neither
flag.  The spec's example sequence on `"d1"` behaves as stated, and the stored
max never decreases. -/
theorem C4_observe_history :
    (∀ hist (id : String) (cur : Int), lookupKey id hist = none →
       observeNum hist id cur = (setKey id cur hist, ⟨true, false, cur⟩)) ∧
    (∀ hist (id : String) (cur m : Int), lookupKey id hist = some m → cur > m →
       observeNum hist id cur = (setKey id cur hist, ⟨true, false, cur⟩)) ∧
    (∀ hist (id : String) (cur m : Int), lookupKey id hist = some m → cur < m →
       observeNum hist id cur = (hist, ⟨false, true, m⟩)) ∧
    (∀ hist (id : String) (m : Int), lookupKey id hist = some m →
       observeNum hist id m = (hist, ⟨false, false, m⟩)) ∧
    (observeNum [] "d1" 100 = ([("d1", 100)], ⟨true, false, 100⟩) ∧
     observeNum [("d1", 100)] "d1" 50 = ([("d1", 100)], ⟨false, true, 100⟩) ∧
     observeNum [("d1", 100)] "d1" 200 = ([("d1", 200)], ⟨true, false, 200⟩)) ∧
    (∀ hist (id : String) (cur m : Int), lookupKey id hist = some m →
       ∃ m', lookupKey id (observeNum hist id cur).1 = some m' ∧ m ≤ m') := by
  refine ⟨?_, ?_, ?_, ?_, by decide, ?_⟩
  · intro hist id cur hl
    simp [observeNum, hl, lookupKey_setKey_self, lt_irrefl]
  · intro hist id cur m hl hc
    simp [observeNum, hl, hc, lookupKey_setKey_self, lt_irrefl]
  · intro hist id cur m hl hc
    have h2 : ¬(cur > m) := by omega
    simp [observeNum, hl, h2, hc]
  · intro hist id m hl
    simp [observeNum, hl, lt_irrefl]
  · intro hist id cur m hl
    by_cases hc : cur > m
    · exact ⟨cur, by simp [observeNum, hl, hc, lookupKey_setKey_self], le_of_lt hc⟩
    · exact ⟨m, by simp [observeNum, hl, hc], le_refl m⟩

/-- Closed instantiation of `C4_observe_history` at a concrete history. -/
theorem C4_observe_history_witness :
    observeNum [("d2", 7)] "d1" 100
      = (setKey "d1" 100 [("d2", 7)], ⟨true, false, 100⟩) ∧
    observeNum [("d1", 100)] "d1" 50 = ([("d1", 100)], ⟨false, true, 100⟩) :=
  ⟨C4_observe_history.1 [("d2", 7)] "d1" 100 (by decide),
   C4_observe_history.2.2.1 [("d1", 100)] "d1" 50 100 (by decide) (by decide)⟩

/-- C5: once a registered identity's display name is a non-placeholder, no
later upsert replaces it with a placeholder: a placeholder candidate leaves the
stored name untouched, a non-placeholder stored name stays non-placeholder, and
the spec's `"Acme Widget"` / `"Unknown Unknown"` sequence keeps
`"Acme Widget"`. -/
theorem C5_registry_name_monotonic :
    (∀ reg (id cand sp now : String) (e : RegEntry), lookupKey id reg = some e →
       isPlaceholder cand = true →
       ∃ e', lookupKey id (upsertRegistry reg id cand sp now).1 = some e' ∧
             e'.name = e.name) ∧
    (∀ reg (id cand sp now : String) (e : RegEntry), lookupKey id reg = some e →
       isPlaceholder e.name = false →
       ∃ e', lookupKey id (upsertRegistry reg id cand sp now).1 = some e' ∧
             isPlaceholder e'.name = false) ∧
    ((lookupKey "d1" (upsertRegistry
        (upsertRegistry [] "d1" "Acme Widget" "480" "t1").1
        "d1" "Unknown Unknown" "480" "t2").1).map RegEntry.name
      = some "Acme Widget") := by
  have hkeep : ∀ reg (id cand sp now : String) (e : RegEntry),
      lookupKey id reg = some e → isPlaceholder cand = true →
      ∃ e', lookupKey id (upsertRegistry reg id cand sp now).1 = some e' ∧
            e'.name = e.name := by
    intro reg id cand sp now e hl hp
    cases hps : pyInt sp with
    | none =>
        exact ⟨⟨e.name, e.speeds, now⟩,
          by simp [upsertRegistry, hl, hp, hps, lookupKey_setKey_self], rfl⟩
    | some v =>
        exact ⟨⟨e.name, addSpeed e.speeds v, now⟩,
          by simp [upsertRegistry, hl, hp, hps, lookupKey_setKey_self], rfl⟩
  refine ⟨hkeep, ?_, by decide⟩
  · intro reg id cand sp now e hl he
    by_cases hp : isPlaceholder cand = true
    · obtain ⟨e', hle, hne⟩ := hkeep reg id cand sp now e hl hp
      exact ⟨e', hle, by rw [hne]; exact he⟩
    · have hp' : isPlaceholder cand = false := by
        cases hc : isPlaceholder cand
        · rfl
        · exact absurd hc hp
      cases hps : pyInt sp with
      | none =>
          exact ⟨⟨cand, e.speeds, now⟩,
            by simp [upsertRegistry, hl, hp', hps, lookupKey_setKey_self], hp'⟩
      | some v =>
          exact ⟨⟨cand, addSpeed e.speeds v, now⟩,
            by simp [upsertRegistry, hl, hp', hps, lookupKey_setKey_self], hp'⟩

/-- Closed instantiation of `C5_registry_name_monotonic`: the stored
`"Acme Widget"` survives an `"Unknown Unknown"` upsert. -/
theorem C5_registry_name_monotonic_witness :
    ∃ e', lookupKey "d1"
        (upsertRegistry [("d1", ⟨"Acme Widget", [], "t0"⟩)]
          "d1" "Unknown Unknown" "480" "t1").1 = some e' ∧
      e'.name = "Acme Widget" :=
  C5_registry_name_monotonic.1 [("d1", ⟨"Acme Widget", [], "t0"⟩)]
    "d1" "Unknown Unknown" "480" "t1" ⟨"Acme Widget", [], "t0"⟩
    (by decide) (by decide)

/-- C6: every processed bus event appends exactly one entry at the end of the
event log, whatever the event's action or identity; the existing entries are
preserved unchanged and in order. -/
theorem C6_log_append (reg : List (String × RegEntry)) (log : List LogEntry)
    (action : String) (dev : USBDevice) (now : String) :
    (handleDeviceEvent reg log action dev now).2
      = log ++ [logEntryOf reg action dev now] ∧
    (handleDeviceEvent reg log action dev now).2.length = log.length + 1 ∧
    (handleDeviceEvent reg log action dev now).2.take log.length = log := by
  refine ⟨rfl, by simp [handleDeviceEvent], ?_⟩
  show (log ++ [logEntryOf reg action dev now]).take log.length = log
  simp

/-- C7: a speed reading of `"N/A"` (and any other non-numeric one, including a
missing/empty value) leaves the speed history completely unchanged, sets
neither flag, and formats for display as `"Unknown"`.  Totality of `observe`
models the requirement that the observation never raises. -/
theorem C7_non_numeric_speed :
    (∀ hist (id : String), observe hist id "N/A" = (hist, ⟨false, false, 0⟩)) ∧
    (∀ hist (id s : String), pyInt s = none →
       observe hist id s = (hist, ⟨false, false, 0⟩)) ∧
    format_speed "N/A" = ("Unknown", "") ∧
    format_speed "" = ("Unknown", "") := by
  refine ⟨?_, ?_, by decide, by decide⟩
  · intro hist id
    rfl
  · intro hist id s hs
    simp [observe, hs]

/-- Closed instantiation of `C7_non_numeric_speed` at a concrete non-numeric
reading. -/
theorem C7_non_numeric_speed_witness :
    observe [("d1", 100)] "d1" "garbled" = ([("d1", 100)], ⟨false, false, 0⟩) :=
  C7_non_numeric_speed.2.1 [("d1", 100)] "d1" "garbled" (by decide)

/-- C8 counterexample: the claim says a raw action outside
add/remove/change/bind/unbind maps to an explicit Ignored variant, but the
code's label mapping sends the out-of-set action `"move"` — and also `"bind"`
and `"unbind"` — to the same `"Changed"` label as a change event; no Ignored
variant exists. -/
theorem C8_counterexample :
    evtType "move" = "Changed" ∧ evtType "move" = evtType "change" ∧
    evtType "bind" = "Changed" ∧ evtType "unbind" = "Changed" := by
  decide

/-- C8 amended: every raw action is normalized into the closed label set
whose members are `"Connected"`, `"Disconnected"` and `"Changed"`:
`add` → Connected, `remove` → Disconnected, and every other action — change,
bind, unbind, or unrecognized — is labelled Changed; no action is dropped,
since each processed event still appends its log entry. -/
theorem C8_event_labels_closed (a : String) :
    (evtType a = "Connected" ∨ evtType a = "Disconnected" ∨
     evtType a = "Changed") ∧
    evtType "add" = "Connected" ∧ evtType "remove" = "Disconnected" ∧
    evtType "change" = "Changed" ∧
    (∀ (reg : List (String × RegEntry)) (log : List LogEntry) (dev : USBDevice)
       (now : String),
       (handleDeviceEvent reg log a dev now).2.length = log.length + 1) := by
  refine ⟨?_, by decide, by decide, by decide, ?_⟩
  · unfold evtType
    by_cases h1 : a = "add"
    · simp [h1]
    · by_cases h2 : a = "remove" <;> by_cases h3 : a = "change" <;>
        simp [h1, h2, h3]
  · intro reg log dev now
    simp [handleDeviceEvent]

/-- C9 counterexample: calling `list_devices` from the consumer context does
not leave the syspath map and device cache unchanged — enumerating one present
device from the empty state writes entries into both maps. -/
theorem C9_counterexample :
    (list_devices ⟨[], []⟩ [devSerial]).2 ≠ (⟨[], []⟩ : MState) := by
  decide

/-- C9 amended: `list_devices` performs a fresh enumeration and returns every
present device (each annotated with its stable identity via `stable_id`), but
it also writes the shared maps: each enumerated device's sys_path → identity
binding is upserted into the syspath map and its identity → snapshot binding
into the device cache. -/
theorem C9_list_devices_effect (st : MState) (present : List USBDevice) :
    (list_devices st present).1 = present ∧
    (∀ (st' : MState) (d : USBDevice),
       (list_devices st' [d]).2 =
         ⟨setKey d.sys_path d.stable_id st'.syspath_map,
          setKey d.stable_id d st'.device_cache⟩) := by
  have aux : ∀ (l : List USBDevice) (acc : List USBDevice) (s : MState),
      (l.foldl listStep (acc, s)).1 = acc ++ l := by
    intro l
    induction l with
    | nil => intro acc s; simp
    | cons d rest ih =>
        intro acc s
        calc (List.foldl listStep (acc, s) (d :: rest)).1
            = (List.foldl listStep (listStep (acc, s) d) rest).1 := rfl
          _ = (acc ++ [d]) ++ rest := ih _ _
          _ = acc ++ d :: rest := by simp
  constructor
  · have h := aux present [] st
    simpa [list_devices] using h
  · intro st' d
    rfl

/-- C10: the log entry appended for a `remove` event carries the literal speed
string `"-"` whatever the removal-time snapshot's speed reads; for every other
action the entry carries the formatted snapshot speed. -/
theorem C10_remove_speed_display (reg : List (String × RegEntry))
    (log : List LogEntry) (action : String) (dev : USBDevice) (now : String) :
    ∃ e, (handleDeviceEvent reg log action dev now).2 = log ++ [e] ∧
      e.speed = if action = "remove" then "-" else (format_speed dev.speed).1 :=
  ⟨logEntryOf reg action dev now, rfl, rfl⟩
